import Mathlib

/-!
Verification of the opx-control-plane orchestration kernel.

Shallow embedding of the Python sources:
  src/src/langgraph/state.py
  src/src/langgraph/agent_node.py
  src/src/langgraph/consensus_node.py
  src/infra/phase6/lambda/cost_guardian_node.py
  src/src/tracing/redaction.py

Python floats are modelled as exact rationals, Python dicts as
insertion-ordered association lists, and the wall clock (timestamps,
durations) as explicit parameters.
-/

namespace OPX

/-! ## Generic helpers: Python-style rounding, dicts, string ops -/

/-- Python round(x, n): round to n decimal places, ties to even
(banker's rounding), modelled exactly on rationals. -/
def pyRound (n : Nat) (q : ℚ) : ℚ :=
  let m : ℚ := q * (10 : ℚ) ^ n
  let f : ℤ := ⌊m⌋
  let r : ℚ := m - (f : ℚ)
  let k : ℤ :=
    if r < 1/2 then f
    else if 1/2 < r then f + 1
    else if f % 2 = 0 then f else f + 1
  (k : ℚ) / (10 : ℚ) ^ n

/-- Python dict lookup d.get(k, default). -/
def dictGetD {α : Type} (d : List (String × α)) (k : String) (default : α) : α :=
  match d.lookup k with
  | some v => v
  | none => default

/-- Python dict update semantics of d[k] = v and of the merge
expression with one overriding key: an existing key keeps its position
in insertion order, a new key is appended at the end. -/
def dictSet {α : Type} (d : List (String × α)) (k : String) (v : α) :
    List (String × α) :=
  if (d.lookup k).isSome then
    d.map (fun p => if p.1 = k then (k, v) else p)
  else
    d ++ [(k, v)]

/-- Python string slicing s[:n] (by characters). -/
def pyTake (s : String) (n : Nat) : String :=
  ⟨s.toList.take n⟩

/-- Python substring containment (needle in haystack). -/
def pyContains (haystack needle : String) : Bool :=
  (haystack.toList.tails).any (fun t => needle.toList.isPrefixOf t)

/-- Render the integer m as a decimal with exactly k fractional digits
(m stands for the value m / 10^k). Used for repr/format of floats. -/
def renderDecimal (k : Nat) (m : ℤ) : String :=
  let sign := if m < 0 then "-" else ""
  let s := toString m.natAbs
  let s := if s.length ≤ k then ⟨List.replicate (k + 1 - s.length) '0'⟩ ++ s else s
  sign ++ pyTake s (s.length - k) ++ "." ++ ⟨s.toList.drop (s.length - k)⟩

/-- Python repr of a float (as used by json.dumps): shortest decimal
form, always with at least one fractional digit. On the exact-rational
model this is the terminating decimal expansion; rationals that are not
binary/decimal-representable do not arise from the modelled code, and
get a total fallback rendering. -/
def floatRepr (q : ℚ) : String :=
  match (List.range 65).find? (fun i => (q * (10 : ℚ) ^ i).den = 1) with
  | some i =>
      let k := max i 1
      renderDecimal k ⌊q * (10 : ℚ) ^ k⌋
  | none => toString q.num ++ "/" ++ toString q.den

/-- Python format specifier :.2f (round half-to-even to two decimals,
render with exactly two fractional digits). -/
def formatFixed2 (q : ℚ) : String :=
  renderDecimal 2 ⌊pyRound 2 q * 100⌋

/-! ## JSON values (the JSONValue bound of state.py) -/

/-- JSON-serializable values: the JSONValue type bound of state.py.
Python ints and floats are distinguished (json.dumps renders them
differently). -/
inductive Json where
  | jnull : Json
  | jbool : Bool → Json
  | jint : ℤ → Json
  | jnum : ℚ → Json
  | jstr : String → Json
  | jarr : List Json → Json
  | jobj : List (String × Json) → Json

mutual
/-- Structural (Python ==) equality test on JSON values. -/
def Json.beq : Json → Json → Bool
  | .jnull, .jnull => true
  | .jbool a, .jbool b => a == b
  | .jint a, .jint b => a == b
  | .jnum a, .jnum b => a == b
  | .jstr a, .jstr b => a == b
  | .jarr a, .jarr b => Json.beqList a b
  | .jobj a, .jobj b => Json.beqFields a b
  | _, _ => false

/-- Element-wise equality of JSON arrays. -/
def Json.beqList : List Json → List Json → Bool
  | [], [] => true
  | a :: as, b :: bs => Json.beq a b && Json.beqList as bs
  | _, _ => false

/-- Field-wise equality of JSON objects (order-sensitive, as list
equality; only used on identically-constructed keys). -/
def Json.beqFields : List (String × Json) → List (String × Json) → Bool
  | [], [] => true
  | (k1, v1) :: as, (k2, v2) :: bs =>
      k1 == k2 && Json.beq v1 v2 && Json.beqFields as bs
  | _, _ => false
end

instance : BEq Json := ⟨Json.beq⟩

/-- Python truthiness of a JSON value (bool(x)). -/
def Json.truthy : Json → Bool
  | .jnull => false
  | .jbool b => b
  | .jint n => n ≠ 0
  | .jnum q => q ≠ 0
  | .jstr s => s ≠ ""
  | .jarr l => ¬ l.isEmpty
  | .jobj l => ¬ l.isEmpty

/-- Lookup in a JSON object (returns none for non-objects). -/
def Json.objGet : Json → String → Option Json
  | .jobj l, k => l.lookup k
  | _, _ => none

/-- Lowercase hex digit. -/
def hexDigit (n : Nat) : Char :=
  if n < 10 then Char.ofNat (48 + n) else Char.ofNat (87 + n)

/-- Four lowercase hex digits. -/
def hex4 (n : Nat) : String :=
  ⟨[hexDigit ((n / 4096) % 16), hexDigit ((n / 256) % 16),
    hexDigit ((n / 16) % 16), hexDigit (n % 16)]⟩

/-- JSON string escaping as json.dumps with ensure_ascii=True performs
it: the two mandatory escapes, the short control escapes, \uXXXX for
other control and all non-ASCII characters (surrogate pairs above the
BMP). -/
def jsonEscapeChar (c : Char) : String :=
  if c = '"' then "\\\""
  else if c = '\\' then "\\\\"
  else if c = '\n' then "\\n"
  else if c = '\t' then "\\t"
  else if c = '\r' then "\\r"
  else if c.toNat = 8 then "\\b"
  else if c.toNat = 12 then "\\f"
  else if c.toNat < 32 then "\\u" ++ hex4 c.toNat
  else if c.toNat < 127 then String.singleton c
  else if c.toNat < 65536 then "\\u" ++ hex4 c.toNat
  else
    let v := c.toNat - 65536
    "\\u" ++ hex4 (55296 + v / 1024) ++ "\\u" ++ hex4 (56320 + v % 1024)

/-- Quote and escape a string for JSON output. -/
def jsonQuote (s : String) : String :=
  "\"" ++ String.join (s.toList.map jsonEscapeChar) ++ "\""

/-- Join rendered items with the default json.dumps item separator. -/
def joinComma (l : List String) : String :=
  String.intercalate ", " l

/-- Stable ascending insertion by string key (Python sorted on dict
keys compares code points lexicographically, as Lean's String order
does). -/
def insertByKey {α : Type} (p : String × α) :
    List (String × α) → List (String × α)
  | [] => [p]
  | q :: rest => if q.1 ≤ p.1 then q :: insertByKey p rest else p :: q :: rest

/-- Sort an association list by key, ascending, stable. -/
def sortByKey {α : Type} (l : List (String × α)) : List (String × α) :=
  l.foldl (fun acc p => insertByKey p acc) []

mutual
/-- json.dumps(v, sort_keys=True) with default separators: canonical
JSON rendering with recursively sorted object keys. Object fields are
rendered first and then sorted by their (raw) key, which yields the
same string as sorting before rendering. -/
def jsonDumpSorted : Json → String
  | .jnull => "null"
  | .jbool true => "true"
  | .jbool false => "false"
  | .jint n => toString n
  | .jnum q => floatRepr q
  | .jstr s => jsonQuote s
  | .jarr items => "[" ++ joinComma (jsonDumpItems items) ++ "]"
  | .jobj fields =>
      "\x7b" ++
        joinComma ((sortByKey (jsonDumpFields fields)).map
          (fun p => jsonQuote p.1 ++ ": " ++ p.2)) ++
      "\x7d"

/-- Render each array item. -/
def jsonDumpItems : List Json → List String
  | [] => []
  | j :: rest => jsonDumpSorted j :: jsonDumpItems rest

/-- Render each object field's value, keeping the raw key. -/
def jsonDumpFields : List (String × Json) → List (String × String)
  | [] => []
  | (k, v) :: rest => (k, jsonDumpSorted v) :: jsonDumpFields rest
end

/-! ## SHA-256 (hashlib.sha256, over UTF-8 bytes) -/

/-- UTF-8 encoding of one character (as Python str.encode). -/
def utf8Char (c : Char) : List Nat :=
  let n := c.toNat
  if n < 128 then [n]
  else if n < 2048 then [192 + n / 64, 128 + n % 64]
  else if n < 65536 then [224 + n / 4096, 128 + (n / 64) % 64, 128 + n % 64]
  else [240 + n / 262144, 128 + (n / 4096) % 64, 128 + (n / 64) % 64,
        128 + n % 64]

/-- UTF-8 encoding of a string as a byte list. -/
def utf8Encode (l : List Char) : List Nat :=
  (l.map utf8Char).flatten

/-- Truncate to a 32-bit word. -/
def w32 (x : Nat) : Nat := x % 4294967296

/-- 32-bit right rotation. -/
def rotr (n x : Nat) : Nat := w32 ((x >>> n) ||| (x <<< (32 - n)))

/-- SHA-256 round constants (FIPS 180-4, written in decimal). -/
def sha256K : List Nat :=
  [1116352408, 1899447441, 3049323471, 3921009573, 961987163, 1508970993,
   2453635748, 2870763221, 3624381080, 310598401, 607225278, 1426881987,
   1925078388, 2162078206, 2614888103, 3248222580, 3835390401, 4022224774,
   264347078, 604807628, 770255983, 1249150122, 1555081692, 1996064986,
   2554220882, 2821834349, 2952996808, 3210313671, 3336571891, 3584528711,
   113926993, 338241895, 666307205, 773529912, 1294757372, 1396182291,
   1695183700, 1986661051, 2177026350, 2456956037, 2730485921, 2820302411,
   3259730800, 3345764771, 3516065817, 3600352804, 4094571909, 275423344,
   430227734, 506948616, 659060556, 883997877, 958139571, 1322822218,
   1537002063, 1747873779, 1955562222, 2024104815, 2227730452, 2361852424,
   2428436474, 2756734187, 3204031479, 3329325298]

/-- SHA-256 initial hash state (FIPS 180-4, written in decimal). -/
def sha256H0 : List Nat :=
  [1779033703, 3144134277, 1013904242, 2773480762,
   1359893119, 2600822924, 528734635, 1541459225]

/-- Pad a byte message: 0x80, zeros to 56 mod 64, 8-byte big-endian
bit length. -/
def sha256Pad (msg : List Nat) : List Nat :=
  let len := msg.length
  let bitLen := 8 * len
  let zeros := (119 - len % 64) % 64
  msg ++ [128] ++ List.replicate zeros 0 ++
    ((List.range 8).map (fun i => (bitLen >>> (8 * (7 - i))) % 256))

/-- Group bytes into big-endian 32-bit words. -/
def bytesToWords : List Nat → List Nat
  | b0 :: b1 :: b2 :: b3 :: rest =>
      (((b0 * 256 + b1) * 256 + b2) * 256 + b3) :: bytesToWords rest
  | _ => []

/-- Split a list into n chunks of 64 elements. -/
def splitBlocks {α : Type} : Nat → List α → List (List α)
  | 0, _ => []
  | n + 1, l => l.take 64 :: splitBlocks n (l.drop 64)

/-- Message schedule: expand 16 words to 64. -/
def sha256Schedule (block : List Nat) : Array Nat := Id.run do
  let mut w : Array Nat := (bytesToWords block).toArray
  for t in [16:64] do
    let w15 := w.getD (t - 15) 0
    let w2 := w.getD (t - 2) 0
    let s0 := (rotr 7 w15) ^^^ (rotr 18 w15) ^^^ (w15 >>> 3)
    let s1 := (rotr 17 w2) ^^^ (rotr 19 w2) ^^^ (w2 >>> 10)
    w := w.push (w32 (w.getD (t - 16) 0 + s0 + w.getD (t - 7) 0 + s1))
  return w

/-- One compression round over a 64-byte block. -/
def sha256Compress (h : List Nat) (block : List Nat) : List Nat := Id.run do
  let w := sha256Schedule block
  let k := sha256K.toArray
  let mut a := h.getD 0 0
  let mut b := h.getD 1 0
  let mut c := h.getD 2 0
  let mut d := h.getD 3 0
  let mut e := h.getD 4 0
  let mut f := h.getD 5 0
  let mut g := h.getD 6 0
  let mut hh := h.getD 7 0
  for t in [0:64] do
    let s1 := (rotr 6 e) ^^^ (rotr 11 e) ^^^ (rotr 25 e)
    let ch := (e &&& f) ^^^ ((4294967295 - e) &&& g)
    let t1 := w32 (hh + s1 + ch + k.getD t 0 + w.getD t 0)
    let s0 := (rotr 2 a) ^^^ (rotr 13 a) ^^^ (rotr 22 a)
    let maj := (a &&& b) ^^^ (a &&& c) ^^^ (b &&& c)
    let t2 := w32 (s0 + maj)
    hh := g
    g := f
    f := e
    e := w32 (d + t1)
    d := c
    c := b
    b := a
    a := w32 (t1 + t2)
  return [w32 (h.getD 0 0 + a), w32 (h.getD 1 0 + b), w32 (h.getD 2 0 + c),
          w32 (h.getD 3 0 + d), w32 (h.getD 4 0 + e), w32 (h.getD 5 0 + f),
          w32 (h.getD 6 0 + g), w32 (h.getD 7 0 + hh)]

/-- SHA-256 digest of a byte message, as 32-bit words. -/
def sha256Words (msg : List Nat) : List Nat :=
  let padded := sha256Pad msg
  (splitBlocks (padded.length / 64) padded).foldl sha256Compress sha256H0

/-- Hex digest of a string's UTF-8 bytes: hashlib.sha256(s.encode()).hexdigest(). -/
def sha256Hex (s : String) : String :=
  String.join ((sha256Words (utf8Encode s.toList)).map
    (fun word => ⟨(List.range 8).map
      (fun i => hexDigit ((word >>> (4 * (7 - i))) % 16))⟩))

/-! ## State model (state.py)

Python floats are exact rationals, dicts are insertion-ordered
association lists, Optional is Option. The one non-rational field is
`agreement_level` (and the `reasoning_coherence` metric equal to it):
consensus_node computes it with a square root, so it lives in ℝ. -/

/-- AgentInput (state.py): frozen agent input envelope. -/
structure AgentInput where
  incident_id : String
  evidence_bundle : List (String × Json)
  timestamp : String
  execution_id : String
  session_id : String
  context : Option (List (String × Json)) := none
  replay_metadata : Option (List (String × Json)) := none

/-- Cost metadata dict attached to every AgentOutput
(inputTokens, outputTokens, estimatedCost, model). -/
structure CostMetadata where
  inputTokens : ℤ
  outputTokens : ℤ
  estimatedCost : ℚ
  model : String

/-- Replay metadata dict (deterministicHash, schemaVersion). -/
structure ReplayMetadata where
  deterministicHash : String
  schemaVersion : String

/-- AgentOutput (state.py): canonical agent output envelope. -/
structure AgentOutput where
  agent_id : String
  agent_version : String
  execution_id : String
  timestamp : String
  duration : ℤ
  status : String
  confidence : ℚ
  reasoning : String
  disclaimer : String
  findings : Json
  citations : Option Json
  cost : CostMetadata
  error : Option Json
  replay_metadata : ReplayMetadata

/-- One conflict record produced by detect_conflicts. -/
structure Conflict where
  agents : List String
  conflict_type : String
  description : String
  resolution : String

/-- Quality metrics dict of compute_quality_metrics. -/
structure QualityMetrics where
  data_completeness : ℚ
  citation_quality : ℚ
  reasoning_coherence : ℝ

/-- ConsensusResult (state.py). -/
structure ConsensusResult where
  aggregated_confidence : ℚ
  agreement_level : ℝ
  conflicts_detected : List Conflict
  unified_recommendation : String
  minority_opinions : List String
  quality_metrics : QualityMetrics
  timestamp : String

/-- Per-agent cost breakdown entry of aggregate_per_agent_costs. -/
structure PerAgentCost where
  inputTokens : ℤ
  outputTokens : ℤ
  cost : ℚ
  model : String

/-- Projections dict of the cost guardian. -/
structure Projections where
  monthlyBurn : ℚ
  incidentsRemaining : ℤ

/-- CostGuardianResult (state.py). -/
structure CostGuardianResult where
  total_cost : ℚ
  budget_remaining : ℚ
  budget_exceeded : Bool
  per_agent_cost : List (String × PerAgentCost)
  projections : Projections
  timestamp : String

/-- StructuredError (state.py). -/
structure StructuredError where
  agent_id : String
  error_code : String
  message : String
  retryable : Bool
  timestamp : String
  retry_attempt : Nat
  details : Option Json

/-- ExecutionTraceEntry (state.py). -/
structure ExecutionTraceEntry where
  node_id : String
  timestamp : String
  duration_ms : ℤ
  status : String
  metadata : Option (List (String × Json))

/-- GraphState (state.py): the aggregate LangGraph state. -/
structure GraphState where
  agent_input : AgentInput
  hypotheses : List (String × AgentOutput)
  consensus : Option ConsensusResult := none
  cost_guardian : Option CostGuardianResult := none
  budget_remaining : ℚ
  retry_count : List (String × Nat)
  execution_trace : List ExecutionTraceEntry
  errors : List StructuredError
  session_id : String
  start_timestamp : String

/-! ## Agent invoker (agent_node.py) -/

/-- MAX_RETRIES constant. -/
def MAX_RETRIES : Nat := 2

/-- RETRYABLE_ERROR_CODES set (agent_node.py lines 58-73). Note: a mix
of raw AWS exception names and canonical codes, exactly as in the
source. -/
def RETRYABLE_ERROR_CODES : List String :=
  ["ThrottlingException", "TooManyRequestsException",
   "ServiceUnavailableException", "InternalServerException",
   "TimeoutException",
   "RATE_LIMIT_EXCEEDED", "BEDROCK_THROTTLING"]

/-- NON_RETRYABLE_ERROR_CODES set (agent_node.py lines 76-96). -/
def NON_RETRYABLE_ERROR_CODES : List String :=
  ["ValidationException", "INVALID_INPUT", "MISSING_REQUIRED_FIELD",
   "SCHEMA_VALIDATION_FAILED", "AccessDeniedException",
   "UnauthorizedException", "ResourceNotFoundException",
   "BUDGET_EXCEEDED", "OUTPUT_VALIDATION_FAILED", "LOW_CONFIDENCE"]

/-- ERROR_CODE_MAPPING dict (agent_node.py lines 99-118). -/
def ERROR_CODE_MAPPING : List (String × String) :=
  [("ThrottlingException", "BEDROCK_THROTTLING"),
   ("ServiceUnavailableException", "DATA_SOURCE_UNAVAILABLE"),
   ("ValidationException", "INVALID_INPUT"),
   ("AccessDeniedException", "INTERNAL_ERROR"),
   ("ResourceNotFoundException", "INTERNAL_ERROR"),
   ("InternalServerException", "INTERNAL_ERROR"),
   ("TooManyRequestsException", "RATE_LIMIT_EXCEEDED"),
   ("TimeoutError", "TIMEOUT"),
   ("ValidationError", "SCHEMA_VALIDATION_FAILED"),
   ("OutputValidationError", "OUTPUT_VALIDATION_FAILED"),
   ("Exception", "UNKNOWN_ERROR")]

/-- MODEL_PRICING table: (input, output) USD per 1K tokens; the default
row is (0.003, 0.015). -/
def MODEL_PRICING : List (String × (ℚ × ℚ)) :=
  [("anthropic.claude-3-5-sonnet-20241022-v2:0", (3/1000, 15/1000))]

/-- Default pricing row MODEL_PRICING["default"]. -/
def DEFAULT_PRICING : ℚ × ℚ := (3/1000, 15/1000)

/-- is_retryable_error: membership in RETRYABLE_ERROR_CODES. -/
def is_retryable_error (error_code : String) : Bool :=
  RETRYABLE_ERROR_CODES.contains error_code

/-- Exceptions as observed by map_exception_to_error_code: either a
botocore ClientError carrying response["Error"]["Code"] (the source
defaults a missing code to "Exception", which is representable by
passing that string), or any other exception identified by its type
name; both carry their str() message. -/
inductive PyException where
  | clientError (code : String) (message : String)
  | other (typeName : String) (message : String)

/-- Python str(e) of a modelled exception. -/
def PyException.message : PyException → String
  | .clientError _ m => m
  | .other _ m => m

/-- map_exception_to_error_code: ClientError maps its response error
code through ERROR_CODE_MAPPING, any other exception maps its type
name; unknown keys map to UNKNOWN_ERROR. -/
def map_exception_to_error_code : PyException → String
  | .clientError code _ => dictGetD ERROR_CODE_MAPPING code "UNKNOWN_ERROR"
  | .other typeName _ => dictGetD ERROR_CODE_MAPPING typeName "UNKNOWN_ERROR"

/-- The parts of a Bedrock Agent response read by
extract_cost_metadata: usage token counts (defaulted to 0 when absent)
and the modelId (defaulted to "unknown"). -/
structure BedrockUsage where
  inputTokens : ℤ
  outputTokens : ℤ
  modelId : String

/-- extract_cost_metadata: zero cost when no response was obtained,
otherwise tokens times the per-1K pricing of the model (default row
for unknown models), rounded to 6 decimals. The failure_type argument
of the source is unused by its body and omitted. -/
def extract_cost_metadata (bedrock_response : Option BedrockUsage) :
    CostMetadata :=
  match bedrock_response with
  | none =>
      { inputTokens := 0, outputTokens := 0, estimatedCost := 0,
        model := "N/A" }
  | some r =>
      let pricing := dictGetD MODEL_PRICING r.modelId DEFAULT_PRICING
      let input_cost := ((r.inputTokens : ℚ) / 1000) * pricing.1
      let output_cost := ((r.outputTokens : ℚ) / 1000) * pricing.2
      { inputTokens := r.inputTokens, outputTokens := r.outputTokens,
        estimatedCost := pyRound 6 (input_cost + output_cost),
        model := r.modelId }

/-- compute_deterministic_hash: SHA-256 over the canonical sorted-key
JSON of incident_id, evidence_bundle, execution_id, findings and the
confidence rounded to 4 decimals; timestamp, session_id, reasoning,
disclaimer, citations, cost and retry counters are not part of the
rendered object. -/
def compute_deterministic_hash (agent_input : AgentInput)
    (findings : Json) (confidence : ℚ) : String :=
  let canonical : Json := .jobj
    [("agent_input", .jobj
        [("incident_id", .jstr agent_input.incident_id),
         ("evidence_bundle", .jobj agent_input.evidence_bundle),
         ("execution_id", .jstr agent_input.execution_id)]),
     ("findings", findings),
     ("confidence", .jnum (pyRound 4 confidence))]
  sha256Hex (jsonDumpSorted canonical)

/-- validate_agent_input: raises ValueError (modelled as Except.error
with the message) on any empty required field. -/
def validate_agent_input (agent_input : AgentInput) : Except String Unit :=
  if agent_input.incident_id = "" then .error "incident_id is required"
  else if agent_input.evidence_bundle.isEmpty then
    .error "evidence_bundle is required"
  else if agent_input.timestamp = "" then .error "timestamp is required"
  else if agent_input.execution_id = "" then
    .error "execution_id is required"
  else if agent_input.session_id = "" then .error "session_id is required"
  else .ok ()

/-- Confidence bound check of validate_agent_output: numeric and in
[0, 1]. -/
def confidenceInRange : Option Json → Bool
  | some (.jint n) => decide (0 ≤ n ∧ n ≤ 1)
  | some (.jnum q) => decide (0 ≤ q ∧ q ≤ 1)
  | _ => false

/-- Status enum check of validate_agent_output. -/
def statusIsValid (raw_output : List (String × Json)) : Bool :=
  match raw_output.lookup "status" with
  | some (.jstr s) => ["SUCCESS", "PARTIAL", "TIMEOUT", "FAILURE"].contains s
  | _ => false

/-- Disclaimer token check of validate_agent_output. -/
def disclaimerHasToken (raw_output : List (String × Json)) : Bool :=
  match raw_output.lookup "disclaimer" with
  | some (.jstr d) => pyContains d "HYPOTHESIS_ONLY_NOT_AUTHORITATIVE"
  | _ => false

/-- Findings truthiness check of validate_agent_output. -/
def findingsNonEmpty (raw_output : List (String × Json)) : Bool :=
  match raw_output.lookup "findings" with
  | some f => f.truthy
  | none => false

/-- validate_agent_output: required fields, confidence bound, status
enum, mandatory disclaimer token, non-empty findings. -/
def validate_agent_output (raw_output : List (String × Json)) :
    Except String Unit :=
  if (raw_output.lookup "confidence").isNone then
    .error "Missing required field: confidence"
  else if (raw_output.lookup "findings").isNone then
    .error "Missing required field: findings"
  else if (raw_output.lookup "disclaimer").isNone then
    .error "Missing required field: disclaimer"
  else if (raw_output.lookup "status").isNone then
    .error "Missing required field: status"
  else if ¬ confidenceInRange (raw_output.lookup "confidence") then
    .error "confidence must be in range [0.0, 1.0]"
  else if ¬ statusIsValid raw_output then
    .error "Invalid status"
  else if ¬ disclaimerHasToken raw_output then
    .error "disclaimer must contain HYPOTHESIS_ONLY_NOT_AUTHORITATIVE"
  else if ¬ findingsNonEmpty raw_output then
    .error "findings cannot be empty"
  else .ok ()

/-- add_execution_trace: functional append of a trace entry; the
utcnow timestamp is the explicit now parameter. -/
def add_execution_trace (state : GraphState) (node_id : String)
    (duration_ms : ℤ) (status : String)
    (metadata : Option (List (String × Json))) (now : String) : GraphState :=
  { state with execution_trace := state.execution_trace ++
      [{ node_id := node_id, timestamp := now, duration_ms := duration_ms,
         status := status, metadata := metadata }] }

/-- increment_retry_count: functional bump of retry_count[agent_id]
(missing key counts as 0). -/
def increment_retry_count (state : GraphState) (agent_id : String) :
    GraphState :=
  let current_count := dictGetD state.retry_count agent_id 0
  let bumped := dictSet state.retry_count agent_id (current_count + 1)
  { state with retry_count := bumped }

/-- create_failure_hypothesis: the synthetic FAILURE AgentOutput with
confidence 0.0 (agent_node.py lines 417-466). -/
def create_failure_hypothesis (agent_id agent_version execution_id
    error_code message : String) (retryable : Bool) (retry_attempt : Nat)
    (cost : CostMetadata) (now : String) : AgentOutput :=
  { agent_id := agent_id, agent_version := agent_version,
    execution_id := execution_id, timestamp := now, duration := 0,
    status := "FAILURE", confidence := 0,
    reasoning := "Agent failed: " ++ message,
    disclaimer := "HYPOTHESIS_ONLY_NOT_AUTHORITATIVE",
    findings := .jobj [("error", .jstr error_code)],
    citations := none, cost := cost,
    error := some (.jobj
      [("code", .jstr error_code), ("message", .jstr message),
       ("retryable", .jbool retryable),
       ("details", .jobj [("retry_attempt", .jint retry_attempt)])]),
    replay_metadata :=
      { deterministicHash := "FAILURE", schemaVersion := "1.0.0" } }

/-- Static configuration captured by create_agent_node. -/
structure AgentNodeConfig where
  agent_id : String
  agent_version : String
  bedrock_agent_id : String
  bedrock_agent_alias_id : String
  max_retries : Nat := MAX_RETRIES

/-- Observable result of the effectful steps of one invocation (the
remote Bedrock call, guardrail response checks and stream parsing,
steps 2-8 of the wrapper): either the parsed JSON agent output
together with the transport metadata, or an exception raised somewhere
in those steps (with the transport metadata when the response had
already been bound, as the except branch of the source tests with
locals()). -/
inductive InvokeOutcome where
  | success (raw_output : List (String × Json)) (response : BedrockUsage)
  | raised (exc : PyException) (response : Option BedrockUsage)

/-- Except-branch of agent_node (agent_node.py lines 780-880): classify
the exception, retry when eligible, otherwise synthesize the failure
hypothesis, the StructuredError and the FAILED trace entry. -/
def agent_node_failure_path (cfg : AgentNodeConfig) (exc : PyException)
    (bedrock_response : Option BedrockUsage) (retry_attempt : Nat)
    (now : String) (duration_ms : ℤ) (state : GraphState) : GraphState :=
  let error_code := map_exception_to_error_code exc
  let message := exc.message
  let retryable := is_retryable_error error_code
  if retryable ∧ retry_attempt < cfg.max_retries then
    let new_state := add_execution_trace state cfg.agent_id duration_ms
      "RETRYING"
      (some [("error_code", .jstr error_code),
             ("retry_attempt", .jint retry_attempt)]) now
    increment_retry_count new_state cfg.agent_id
  else
    let cost := extract_cost_metadata bedrock_response
    let structured_error : StructuredError :=
      { agent_id := cfg.agent_id, error_code := error_code,
        message := message, retryable := retryable, timestamp := now,
        retry_attempt := retry_attempt, details := none }
    let failure_output := create_failure_hypothesis cfg.agent_id
      cfg.agent_version state.agent_input.execution_id error_code message
      retryable retry_attempt cost now
    let new_state := { state with
      hypotheses := dictSet state.hypotheses cfg.agent_id failure_output,
      errors := state.errors ++ [structured_error] }
    add_execution_trace new_state cfg.agent_id duration_ms "FAILED"
      (some [("error_code", .jstr error_code),
             ("retry_attempt", .jint retry_attempt)]) now

/-- Extract the numeric value of a validated confidence field. -/
def jsonConfidence : Option Json → ℚ
  | some (.jint n) => (n : ℚ)
  | some (.jnum q) => q
  | _ => 0

/-- agent_node (agent_node.py lines 503-882): the per-agent LangGraph
node. The wall clock is the now/duration_ms parameters; the remote call
is the outcome parameter; the out-of-band trace and guardrail-logging
emissions (steps 3.5 and 5.5) do not touch the state and are absorbed.
The fail-closed configuration check raises (Except.error); every other
path returns a state. -/
def agent_node (cfg : AgentNodeConfig) (outcome : InvokeOutcome)
    (now : String) (duration_ms : ℤ) (state : GraphState) :
    Except String GraphState :=
  let agent_input := state.agent_input
  let retry_attempt := dictGetD state.retry_count cfg.agent_id 0
  if cfg.bedrock_agent_id = "" ∨ cfg.bedrock_agent_alias_id = "" then
    .error ("Agent " ++ cfg.agent_id ++
      " misconfigured: missing Bedrock agent ID or alias.")
  else
    let state := add_execution_trace state cfg.agent_id 0 "STARTED"
      (some [("retry_attempt", .jint retry_attempt)]) now
    match validate_agent_input agent_input with
    | .error msg =>
        .ok (agent_node_failure_path cfg (.other "ValueError" msg) none
          retry_attempt now duration_ms state)
    | .ok () =>
        match outcome with
        | .raised exc resp =>
            .ok (agent_node_failure_path cfg exc resp retry_attempt now
              duration_ms state)
        | .success raw_output resp =>
            match validate_agent_output raw_output with
            | .error msg =>
                .ok (agent_node_failure_path cfg (.other "ValueError" msg)
                  (some resp) retry_attempt now duration_ms state)
            | .ok () =>
                let cost := extract_cost_metadata (some resp)
                let confidence := jsonConfidence
                  (raw_output.lookup "confidence")
                let status := match raw_output.lookup "status" with
                  | some (.jstr s) => s
                  | _ => ""
                let disclaimer := match raw_output.lookup "disclaimer" with
                  | some (.jstr d) => d
                  | _ => ""
                let findings :=
                  (raw_output.lookup "findings").getD .jnull
                let reasoning := match raw_output.lookup "reasoning" with
                  | some (.jstr s) => s
                  | _ => ""
                let agent_output : AgentOutput :=
                  { agent_id := cfg.agent_id,
                    agent_version := cfg.agent_version,
                    execution_id := agent_input.execution_id,
                    timestamp := now, duration := duration_ms,
                    status := status, confidence := confidence,
                    reasoning := reasoning, disclaimer := disclaimer,
                    findings := findings,
                    citations := raw_output.lookup "citations",
                    cost := cost, error := raw_output.lookup "error",
                    replay_metadata :=
                      { deterministicHash := compute_deterministic_hash
                          agent_input findings confidence,
                        schemaVersion := "1.0.0" } }
                let new_state := { state with
                  hypotheses :=
                    dictSet state.hypotheses cfg.agent_id agent_output }
                let new_state := add_execution_trace new_state cfg.agent_id
                  duration_ms "COMPLETED"
                  (some [("confidence", .jnum confidence),
                         ("status", .jstr status)]) now
                .ok new_state

/-! ## Cost guardian (cost_guardian_node.py) -/

/-- INCIDENTS_PER_DAY constant. -/
def INCIDENTS_PER_DAY : ℤ := 10

/-- DAYS_PER_MONTH constant. -/
def DAYS_PER_MONTH : ℤ := 30

/-- aggregate_per_agent_costs: per-agent breakdown from each output's
cost metadata. -/
def aggregate_per_agent_costs (hypotheses : List (String × AgentOutput)) :
    List (String × PerAgentCost) :=
  hypotheses.map (fun p =>
    (p.1, { inputTokens := p.2.cost.inputTokens,
            outputTokens := p.2.cost.outputTokens,
            cost := p.2.cost.estimatedCost,
            model := p.2.cost.model }))

/-- calculate_total_cost: sum of per-agent costs rounded to 6
decimals. -/
def calculate_total_cost (per_agent_costs : List (String × PerAgentCost)) :
    ℚ :=
  pyRound 6 ((per_agent_costs.map (fun p => p.2.cost)).sum)

/-- calculate_budget_remaining: before minus total (may be negative). -/
def calculate_budget_remaining (budget_remaining_before total_cost : ℚ) :
    ℚ :=
  budget_remaining_before - total_cost

/-- check_budget_exceeded: already-negative budget is exceeded,
otherwise exceeded iff total cost strictly exceeds the budget. -/
def check_budget_exceeded (total_cost budget_remaining_before : ℚ) :
    Bool :=
  if budget_remaining_before < 0 then true
  else decide (total_cost > budget_remaining_before)

/-- project_monthly_burn with the default incidents-per-day. -/
def project_monthly_burn (total_cost : ℚ)
    (incidents_per_day : ℤ := INCIDENTS_PER_DAY) : ℚ :=
  total_cost * incidents_per_day * DAYS_PER_MONTH

/-- estimate_incidents_remaining: zero when no cost or no budget,
otherwise the integer part of the quotient (both operands positive
there, so Python int() truncation is the floor). -/
def estimate_incidents_remaining (budget_remaining_after total_cost : ℚ) :
    ℤ :=
  if total_cost ≤ 0 then 0
  else if budget_remaining_after ≤ 0 then 0
  else ⌊budget_remaining_after / total_cost⌋

/-- cost_guardian_node (cost_guardian_node.py lines 261-358): pure
budget accounting; sets cost_guardian and budget_remaining, appends a
COMPLETED trace entry. -/
def cost_guardian_node (now : String) (duration_ms : ℤ)
    (state : GraphState) : GraphState :=
  let hypotheses := state.hypotheses
  let budget_remaining_before := state.budget_remaining
  let per_agent_costs := aggregate_per_agent_costs hypotheses
  let total_cost := calculate_total_cost per_agent_costs
  let budget_remaining_after :=
    calculate_budget_remaining budget_remaining_before total_cost
  let budget_exceeded :=
    check_budget_exceeded total_cost budget_remaining_before
  let monthly_burn := project_monthly_burn total_cost
  let incidents_remaining :=
    estimate_incidents_remaining budget_remaining_after total_cost
  let cost_guardian_result : CostGuardianResult :=
    { total_cost := total_cost, budget_remaining := budget_remaining_after,
      budget_exceeded := budget_exceeded,
      per_agent_cost := per_agent_costs,
      projections := { monthlyBurn := monthly_burn,
                       incidentsRemaining := incidents_remaining },
      timestamp := now }
  let new_state := { state with
    cost_guardian := some cost_guardian_result,
    budget_remaining := budget_remaining_after }
  add_execution_trace new_state "cost-guardian" duration_ms "COMPLETED"
    (some [("total_cost", .jnum total_cost),
           ("budget_remaining", .jnum budget_remaining_after),
           ("budget_exceeded", .jbool budget_exceeded)]) now

/-! ## Consensus aggregator (consensus_node.py) -/

/-- AGENT_WEIGHTS static table. -/
def AGENT_WEIGHTS : List (String × ℚ) :=
  [("signal-intelligence", 1),
   ("historical-pattern", 9/10),
   ("change-intelligence", 9/10),
   ("risk-blast-radius", 8/10),
   ("knowledge-rag", 7/10),
   ("response-strategy", 6/10)]

/-- CONFIDENCE_DIVERGENCE_THRESHOLD constant. -/
def CONFIDENCE_DIVERGENCE_THRESHOLD : ℚ := 3/10

/-- aggregate_confidence: weighted average of confidences; unknown
agents weigh 0.5; empty input or zero total weight yields 0.0. Not
rounded. -/
def aggregate_confidence (hypotheses : List (String × AgentOutput))
    (agent_weights : List (String × ℚ)) : ℚ :=
  if hypotheses.isEmpty then 0
  else
    let acc := hypotheses.foldl
      (fun (acc : ℚ × ℚ) p =>
        let weight := dictGetD agent_weights p.1 (1/2)
        (acc.1 + p.2.confidence * weight, acc.2 + weight))
      (0, 0)
    if acc.2 = 0 then 0 else acc.1 / acc.2

/-- compute_max_possible_std_dev: 0 below two agents, else 0.5. -/
def compute_max_possible_std_dev (n_agents : Nat) : ℚ :=
  if n_agents < 2 then 0 else 1/2

/-- Confidence list of a hypotheses map (dict .values() order). -/
def confidencesOf (hypotheses : List (String × AgentOutput)) : List ℚ :=
  hypotheses.map (fun p => p.2.confidence)

/-- Mean of a rational list (callers guarantee nonemptiness). -/
def listMean (l : List ℚ) : ℚ := l.sum / l.length

/-- Population variance of a rational list. -/
def listVariance (l : List ℚ) : ℚ :=
  ((l.map (fun c => (c - listMean l) ^ 2)).sum) / l.length

/-- compute_agreement_level: 1.0 below two agents; otherwise
1 − σ/σmax clamped to [0, 1], with σ the population standard deviation
of the confidences (an exact real square root here, where the source
takes variance ** 0.5) and 1.0 when σ = 0. -/
noncomputable def compute_agreement_level
    (hypotheses : List (String × AgentOutput)) : ℝ :=
  let confidences := confidencesOf hypotheses
  if confidences.length < 2 then 1
  else
    let variance := listVariance confidences
    let std_dev : ℝ := Real.sqrt (variance : ℝ)
    if std_dev = 0 then 1
    else
      let max_std_dev := compute_max_possible_std_dev confidences.length
      max 0 (min 1 (1 - std_dev / (max_std_dev : ℝ)))

/-- Python str() of a JSON value as interpolated into f-strings. The
container cases (which the modelled call sites never hit with
claim-relevant data) are approximated by the canonical JSON dump. -/
def pyStr : Json → String
  | .jstr s => s
  | .jint n => toString n
  | .jnum q => floatRepr q
  | .jbool true => "True"
  | .jbool false => "False"
  | .jnull => "None"
  | j => jsonDumpSorted j

/-- Python max(l, default=d): d only for the empty list. -/
def pyMaxD (l : List ℚ) (d : ℚ) : ℚ :=
  match l with
  | [] => d
  | x :: xs => xs.foldl max x

/-- Python min(l) on a nonempty list (0 as unreachable fallback). -/
def pyMinD (l : List ℚ) : ℚ :=
  match l with
  | [] => 0
  | x :: xs => xs.foldl min x

/-- defaultdict(list) bucket append, preserving first-occurrence key
order. -/
def bucketAdd {α : Type} (l : List (Json × List α)) (k : Json) (v : α) :
    List (Json × List α) :=
  if (l.find? (fun p => Json.beq p.1 k)).isSome then
    l.map (fun p => if Json.beq p.1 k then (p.1, p.2 ++ [v]) else p)
  else l ++ [(k, [v])]

/-- All ordered pairs (x, y) with x before y, in the order of the
nested source loops (for i, t1 in enumerate(ts): for t2 in ts[i+1:]). -/
def pairsAfter {α : Type} : List α → List (α × α)
  | [] => []
  | x :: rest => rest.map (fun y => (x, y)) ++ pairsAfter rest

/-- Stable insertion keeping a descending order (equal keys keep
insertion order, as Python sorted(..., reverse=True)). -/
def insertDescBy {α : Type} (f : α → ℚ) (x : α) : List α → List α
  | [] => [x]
  | y :: ys => if f x ≤ f y then y :: insertDescBy f x ys
               else x :: y :: ys

/-- Python sorted(l, key=f, reverse=True): stable descending sort. -/
def sortDescBy {α : Type} (f : α → ℚ) (l : List α) : List α :=
  l.foldl (fun acc y => insertDescBy f y acc) []

/-- Recommendation grouping of detect_conflicts: non-FAILURE outputs
contribute one (agent_id, confidence) entry to the bucket of each
recommendation dict carrying a "type" key, in iteration order. (The
source also stores the rec dict itself, which it never reads back.) -/
def recsByTypeConf (hypotheses : List (String × AgentOutput)) :
    List (Json × List (String × ℚ)) :=
  hypotheses.foldl (fun acc p =>
    if p.2.status = "FAILURE" then acc
    else match p.2.findings.objGet "recommendations" with
      | some (.jarr recs) =>
          recs.foldl (fun acc rec =>
            match rec with
            | .jobj fields =>
                match fields.lookup "type" with
                | some t => bucketAdd acc t (p.1, p.2.confidence)
                | none => acc
            | _ => acc) acc
      | _ => acc) []

/-- detect_conflicts (consensus_node.py lines 166-248): cross-type
divergence over 0.3 between per-type confidence maxima, then
within-type divergence over 0.3 between a type's extremes. -/
def detect_conflicts (hypotheses : List (String × AgentOutput))
    (confidence_threshold : ℚ := CONFIDENCE_DIVERGENCE_THRESHOLD) :
    List Conflict :=
  let recommendations_by_type := recsByTypeConf hypotheses
  let cross := (pairsAfter recommendations_by_type).foldl
    (fun acc pr =>
      let type1 := pr.1.1
      let agents1 := pr.1.2
      let type2 := pr.2.1
      let agents2 := pr.2.2
      let max_conf1 := pyMaxD (agents1.map (fun a => a.2)) 0
      let max_conf2 := pyMaxD (agents2.map (fun a => a.2)) 0
      let confidence_diff := |max_conf1 - max_conf2|
      if confidence_diff > confidence_threshold then
        let agent_id1 :=
          ((agents1.find? (fun a => a.2 == max_conf1)).map
            (fun a => a.1)).getD "unknown"
        let agent_id2 :=
          ((agents2.find? (fun a => a.2 == max_conf2)).map
            (fun a => a.1)).getD "unknown"
        acc ++ [{ agents := [agent_id1, agent_id2],
                  conflict_type := "ACTION_TYPE_DIVERGENCE",
                  description := agent_id1 ++ " recommends " ++
                    pyStr type1 ++ " (" ++ formatFixed2 max_conf1 ++
                    "), " ++ agent_id2 ++ " recommends " ++ pyStr type2 ++
                    " (" ++ formatFixed2 max_conf2 ++ ")",
                  resolution := "Highest confidence wins: " ++
                    (if max_conf1 > max_conf2 then agent_id1
                     else agent_id2) ++
                    " (" ++ formatFixed2 (max max_conf1 max_conf2) ++
                    ")" }]
      else acc) []
  let within := recommendations_by_type.foldl
    (fun acc pr =>
      let agents := pr.2
      if agents.length < 2 then acc
      else
        let confidences := agents.map (fun a => a.2)
        let max_conf := pyMaxD confidences 0
        let min_conf := pyMinD confidences
        if max_conf - min_conf > confidence_threshold then
          let max_agent :=
            ((agents.find? (fun a => a.2 == max_conf)).map
              (fun a => a.1)).getD "unknown"
          let min_agent :=
            ((agents.find? (fun a => a.2 == min_conf)).map
              (fun a => a.1)).getD "unknown"
          acc ++ [{ agents := [max_agent, min_agent],
                    conflict_type := "CONFIDENCE_DIVERGENCE",
                    description := "Confidence difference: " ++
                      formatFixed2 (max_conf - min_conf) ++ " (" ++
                      formatFixed2 max_conf ++ " vs " ++
                      formatFixed2 min_conf ++ ")",
                    resolution := "Highest confidence wins: " ++
                      max_agent ++ " (" ++ formatFixed2 max_conf ++
                      ")" }]
        else acc) []
  cross ++ within

/-- Recommendation grouping of synthesize_unified_recommendation:
like recsByTypeConf but requiring a "description" key too and storing
its str() value. -/
def recsByTypeDesc (hypotheses : List (String × AgentOutput)) :
    List (Json × List (String × ℚ × String)) :=
  hypotheses.foldl (fun acc p =>
    if p.2.status = "FAILURE" then acc
    else match p.2.findings.objGet "recommendations" with
      | some (.jarr recs) =>
          recs.foldl (fun acc rec =>
            match rec with
            | .jobj fields =>
                match fields.lookup "type", fields.lookup "description" with
                | some t, some d =>
                    bucketAdd acc t (p.1, p.2.confidence, pyStr d)
                | _, _ => acc
            | _ => acc) acc
      | _ => acc) []

/-- Whether every output of a hypotheses map has FAILURE status
(Python all(), vacuously true on the empty map). -/
def allFailed (hypotheses : List (String × AgentOutput)) : Bool :=
  hypotheses.all (fun p => p.2.status == "FAILURE")

/-- Count of non-FAILURE outputs. -/
def nonFailureCount (hypotheses : List (String × AgentOutput)) : Nat :=
  (hypotheses.filter (fun p => p.2.status ≠ "FAILURE")).length

/-- PRIMARY/ALTERNATIVE lines for the top-two recommendation types
(indexed as by enumerate over sorted_types[:2]). -/
def recommendationParts (hypotheses : List (String × AgentOutput)) :
    List String :=
  let sorted_types := sortDescBy
    (fun g => pyMaxD (g.2.map (fun r => r.2.1)) 0)
    (recsByTypeDesc hypotheses)
  (sorted_types.take 2).enum.map (fun ig =>
    let i := ig.1
    let recs := ig.2.2
    let recs_sorted := sortDescBy (fun r => r.2.1) recs
    match recs_sorted with
    | [] => ""
    | top :: _ =>
        let confidence := top.2.1
        let description := top.2.2
        let n_agree := recs.length
        let n_total := nonFailureCount hypotheses
        let label := if i = 0 then "PRIMARY" else "ALTERNATIVE"
        label ++ ": " ++ pyTake description 100 ++ " (confidence: " ++
          formatFixed2 confidence ++ ", agents: " ++ toString n_agree ++
          "/" ++ toString n_total ++ " agree)")

/-- synthesize_unified_recommendation (consensus_node.py lines
251-334). -/
def synthesize_unified_recommendation
    (hypotheses : List (String × AgentOutput))
    (conflicts : List Conflict) : String :=
  if allFailed hypotheses then
    "Insufficient data for recommendation. All agents failed."
  else if (recsByTypeDesc hypotheses).isEmpty then
    "No actionable recommendations."
  else
    let parts := recommendationParts hypotheses
    let parts := parts ++
      [if conflicts.isEmpty then "CONFLICTS: None detected"
       else "CONFLICTS: " ++ toString conflicts.length ++ " detected"]
    let unified := String.intercalate ". " parts
    if unified.length > 500 then pyTake unified 497 ++ "..." else unified

/-- extract_minority_opinions (consensus_node.py lines 337-379). -/
def extract_minority_opinions (hypotheses : List (String × AgentOutput))
    (unified_recommendation : String) : List String :=
  hypotheses.foldl (fun acc p =>
    if p.2.status = "FAILURE" ∨ p.2.confidence ≤ 1/2 then acc
    else match p.2.findings.objGet "recommendations" with
      | some (.jarr recs) =>
          recs.foldl (fun acc rec =>
            match rec with
            | .jobj fields =>
                match fields.lookup "description" with
                | some d =>
                    let description := pyStr d
                    if pyContains unified_recommendation
                        (pyTake description 50) then acc
                    else acc ++ [p.1 ++ " suggests " ++
                      pyTake description 100 ++ " (confidence: " ++
                      formatFixed2 p.2.confidence ++ ")"]
                | none => acc
            | _ => acc) acc
      | _ => acc) []

/-- compute_quality_metrics (consensus_node.py lines 382-429). -/
noncomputable def compute_quality_metrics
    (hypotheses : List (String × AgentOutput)) : QualityMetrics :=
  if hypotheses.isEmpty then
    { data_completeness := 0, citation_quality := 0,
      reasoning_coherence := 0 }
  else
    let total_agents := hypotheses.length
    let success_count :=
      (hypotheses.filter (fun p => p.2.status = "SUCCESS")).length
    let citation_count :=
      (hypotheses.filter (fun p =>
        match p.2.citations with
        | some (.jarr l) => ¬ l.isEmpty
        | _ => false)).length
    { data_completeness := (success_count : ℚ) / total_agents,
      citation_quality := (citation_count : ℚ) / total_agents,
      reasoning_coherence := compute_agreement_level hypotheses }

/-- consensus_node (consensus_node.py lines 473-558): pure consensus
aggregation; sets consensus, appends a COMPLETED trace entry. (The
agreement level inside the trace metadata is an irrational real in
this model; nothing reads it back and it is rendered as null.) -/
noncomputable def consensus_node (now : String) (duration_ms : ℤ)
    (state : GraphState) : GraphState :=
  let hypotheses := state.hypotheses
  let agent_weights := AGENT_WEIGHTS
  let aggregated_confidence := aggregate_confidence hypotheses agent_weights
  let agreement_level := compute_agreement_level hypotheses
  let conflicts := detect_conflicts hypotheses
  let unified_recommendation :=
    synthesize_unified_recommendation hypotheses conflicts
  let minority_opinions :=
    extract_minority_opinions hypotheses unified_recommendation
  let quality_metrics := compute_quality_metrics hypotheses
  let consensus_result : ConsensusResult :=
    { aggregated_confidence := aggregated_confidence,
      agreement_level := agreement_level,
      conflicts_detected := conflicts,
      unified_recommendation := unified_recommendation,
      minority_opinions := minority_opinions,
      quality_metrics := quality_metrics,
      timestamp := now }
  let new_state := { state with consensus := some consensus_result }
  add_execution_trace new_state "consensus" duration_ms "COMPLETED"
    (some [("aggregated_confidence", .jnum aggregated_confidence),
           ("agreement_level", .jnull),
           ("conflicts_count", .jint conflicts.length)]) now

/-! ## PII redaction (redaction.py)

The six PII_PATTERNS are simple concatenations of character-class
repetitions and word boundaries, so they are embedded as atom
sequences and evaluated with a backtracking matcher that mirrors
Python re semantics on them: leftmost match, greedy quantifiers with
backtracking, \b as a word/non-word transition, and re.sub scanning the
original string left to right past each non-overlapping match. -/

/-- One regex atom: a character class repeated between lo and hi times
(hi = none means unbounded), matched greedily, or a word boundary. -/
inductive ReAtom where
  | classRep (p : Char → Bool) (lo : Nat) (hi : Option Nat)
  | boundary

/-- Python \w (ASCII relevant range, as in the modelled inputs). -/
def isWordChar (c : Char) : Bool := c.isAlphanum || c = '_'

/-- Length of the maximal prefix run of class characters. -/
def countRun (p : Char → Bool) : List Char → Nat
  | [] => 0
  | c :: cs => if p c then countRun p cs + 1 else 0

/-- Match the atom sequence at the start of s (prev is the character
just before s in the subject, for \b). Returns the number of
characters consumed by the preferred match. A class repetition tries
its counts greedily from the longest feasible run downwards
(backtracking), as Python's engine does. -/
def matchAtoms : List ReAtom → Option Char → List Char → Option Nat
  | [], _, _ => some 0
  | .boundary :: rest, prev, s =>
      let pw := match prev with | some c => isWordChar c | none => false
      let nw := match s with | c :: _ => isWordChar c | [] => false
      if pw ≠ nw then matchAtoms rest prev s else none
  | .classRep p lo hi :: rest, prev, s =>
      let maxRun := countRun p s
      let maxTake := match hi with | some h => min h maxRun | none => maxRun
      if maxTake < lo then none
      else
        (List.range (maxTake + 1 - lo)).findSome? (fun i =>
          let k := maxTake - i
          let prevK := if k = 0 then prev else s[k-1]?
          (matchAtoms rest prevK (s.drop k)).map (fun n => k + n))

/-- re.search: does the pattern match anywhere in the subject? -/
def searchB (pattern : List ReAtom) : Option Char → List Char → Bool
  | prev, [] => (matchAtoms pattern prev []).isSome
  | prev, c :: rest =>
      (matchAtoms pattern prev (c :: rest)).isSome ||
        searchB pattern (some c) rest

/-- re.sub scanning with fuel (one unit per subject character): at
each position of the original subject, replace the preferred match and
continue after it, otherwise emit the character. The zero-width case
is unreachable for the six patterns (each requires at least one
character) and conservatively advances one character. -/
def subFuel (pattern : List ReAtom) (repl : List Char) :
    Nat → Option Char → List Char → List Char
  | 0, _, s => s
  | _ + 1, _, [] => []
  | fuel + 1, prev, c :: rest =>
      match matchAtoms pattern prev (c :: rest) with
      | some (n + 1) =>
          let consumed := (c :: rest).take (n + 1)
          let prevNext := match consumed.getLast? with
            | some c2 => some c2
            | none => prev
          repl ++ subFuel pattern repl fuel prevNext ((c :: rest).drop (n + 1))
      | _ => c :: subFuel pattern repl fuel (some c) rest

/-- re.sub(pattern, repl, s). -/
def reSub (pattern : List ReAtom) (repl : String) (s : String) : String :=
  ⟨subFuel pattern repl.toList s.toList.length none s.toList⟩

/-- re.search(pattern, s) as a Bool. -/
def reSearch (pattern : List ReAtom) (s : String) : Bool :=
  searchB pattern none s.toList

/-- Email local-part class [A-Za-z0-9._%+-]. -/
def emailLocalChar (c : Char) : Bool :=
  c.isAlpha || c.isDigit || c = '.' || c = '_' || c = '%' || c = '+' ||
    c = '-'

/-- Email domain class [A-Za-z0-9.-]. -/
def emailDomainChar (c : Char) : Bool :=
  c.isAlpha || c.isDigit || c = '.' || c = '-'

/-- TLD class [A-Z|a-z] (the source class literally includes the pipe
character). -/
def tldChar (c : Char) : Bool := c.isUpper || c = '|' || c.isLower

/-- Dash-or-dot class [-.] of the phone pattern. -/
def dashDot (c : Char) : Bool := c = '-' || c = '.'

/-- AWS access key id class [0-9A-Z]. -/
def upperOrDigit (c : Char) : Bool := c.isDigit || c.isUpper

/-- Exactly one occurrence of the character x. -/
def reLit (x : Char) : ReAtom := .classRep (fun c => c = x) 1 (some 1)

/-- Email pattern: \b[A-Za-z0-9._%+-]+@[A-Za-z0-9.-]+\.[A-Z|a-z]{2,}\b. -/
def emailPattern : List ReAtom :=
  [.boundary, .classRep emailLocalChar 1 none, reLit '@',
   .classRep emailDomainChar 1 none, reLit '.',
   .classRep tldChar 2 none, .boundary]

/-- Phone pattern: \b\d{3}[-.]?\d{3}[-.]?\d{4}\b. -/
def phonePattern : List ReAtom :=
  [.boundary, .classRep Char.isDigit 3 (some 3),
   .classRep dashDot 0 (some 1), .classRep Char.isDigit 3 (some 3),
   .classRep dashDot 0 (some 1), .classRep Char.isDigit 4 (some 4),
   .boundary]

/-- SSN pattern: \b\d{3}-\d{2}-\d{4}\b. -/
def ssnPattern : List ReAtom :=
  [.boundary, .classRep Char.isDigit 3 (some 3), reLit '-',
   .classRep Char.isDigit 2 (some 2), reLit '-',
   .classRep Char.isDigit 4 (some 4), .boundary]

/-- AWS account pattern: \b\d{12}\b. -/
def awsAccountPattern : List ReAtom :=
  [.boundary, .classRep Char.isDigit 12 (some 12), .boundary]

/-- AWS access key pattern: AKIA[0-9A-Z]{16}. -/
def awsAccessKeyPattern : List ReAtom :=
  [reLit 'A', reLit 'K', reLit 'I', reLit 'A',
   .classRep upperOrDigit 16 (some 16)]

/-- IPv4 pattern: \b\d{1,3}\.\d{1,3}\.\d{1,3}\.\d{1,3}\b. -/
def ipPattern : List ReAtom :=
  [.boundary, .classRep Char.isDigit 1 (some 3), reLit '.',
   .classRep Char.isDigit 1 (some 3), reLit '.',
   .classRep Char.isDigit 1 (some 3), reLit '.',
   .classRep Char.isDigit 1 (some 3), .boundary]

/-- PII_PATTERNS dict (redaction.py lines 17-42), in insertion order:
name, pattern, replacement token. -/
def PII_PATTERNS : List (String × (List ReAtom × String)) :=
  [("email", (emailPattern, "[EMAIL_REDACTED]")),
   ("phone", (phonePattern, "[PHONE_REDACTED]")),
   ("ssn", (ssnPattern, "[SSN_REDACTED]")),
   ("aws_account", (awsAccountPattern, "[AWS_ACCOUNT_REDACTED]")),
   ("aws_access_key", (awsAccessKeyPattern, "[AWS_KEY_REDACTED]")),
   ("ip_address", (ipPattern, "[IP_REDACTED]"))]

/-- redact_pii (redaction.py lines 44-69): empty text unchanged with
flag false; otherwise apply each pattern's substitution in dict order
to the running text whenever a search hits, flagging redaction. -/
def redact_pii (text : String) : String × Bool :=
  if text = "" then (text, false)
  else
    PII_PATTERNS.foldl
      (fun (acc : String × Bool) entry =>
        let pattern := entry.2.1
        let replacement := entry.2.2
        if reSearch pattern acc.1 then
          (reSub pattern replacement acc.1, true)
        else acc)
      (text, false)

/-! ## Concrete sample data for witnesses and counterexamples -/

/-- Concrete cost metadata (100 input and 50 output tokens at the
default pricing: 0.001125 USD). -/
def sampleCost : CostMetadata :=
  { inputTokens := 100, outputTokens := 50, estimatedCost := 1125/1000000,
    model := "M" }

/-- Concrete agent output with the given id, status and confidence. -/
def sampleOutput (aid status : String) (conf : ℚ) (findings : Json) :
    AgentOutput :=
  { agent_id := aid, agent_version := "1.0.0", execution_id := "exec-1",
    timestamp := "2025-01-01T00:00:10", duration := 10, status := status,
    confidence := conf, reasoning := "r",
    disclaimer := "HYPOTHESIS_ONLY_NOT_AUTHORITATIVE",
    findings := findings, citations := none, cost := sampleCost,
    error := none,
    replay_metadata := { deterministicHash := "h", schemaVersion := "1.0.0" } }

/-- Concrete valid agent input. -/
def sampleInput : AgentInput :=
  { incident_id := "INC-T1",
    evidence_bundle := [("signals", .jarr [.jnum (955/10)])],
    timestamp := "2025-01-01T00:00:00", execution_id := "exec-1",
    session_id := "sess-1" }

/-- Same semantic content as sampleInput, different execution-time
metadata (timestamp, session_id, context). -/
def sampleInputB : AgentInput :=
  { incident_id := "INC-T1",
    evidence_bundle := [("signals", .jarr [.jnum (955/10)])],
    timestamp := "2026-06-30T12:34:56", execution_id := "exec-1",
    session_id := "sess-other",
    context := some [("note", .jstr "replay")] }

/-- Concrete input with an empty incident_id (invalid). -/
def sampleEmptyInput : AgentInput :=
  { incident_id := "", evidence_bundle := [("k", .jint 1)],
    timestamp := "2025-01-01T00:00:00", execution_id := "exec-1",
    session_id := "sess-1" }

/-- Concrete graph state builder. -/
def sampleState (agent_input : AgentInput)
    (hypotheses : List (String × AgentOutput)) (budget : ℚ) : GraphState :=
  { agent_input := agent_input, hypotheses := hypotheses,
    budget_remaining := budget, retry_count := [], execution_trace := [],
    errors := [], session_id := "sess-1",
    start_timestamp := "2025-01-01T00:00:00" }

/-- Concrete agent node configuration. -/
def sampleCfg : AgentNodeConfig :=
  { agent_id := "signal-intelligence", agent_version := "1.0.0",
    bedrock_agent_id := "AGENTID", bedrock_agent_alias_id := "ALIASID" }

/-- Two-agent state whose weighted average confidence 14/95 is not
representable in 4 decimals. -/
def sampleStateC9 : GraphState :=
  sampleState sampleInput
    [("signal-intelligence",
      sampleOutput "signal-intelligence" "SUCCESS" (1/10) (.jobj [("k", .jint 1)])),
     ("historical-pattern",
      sampleOutput "historical-pattern" "SUCCESS" (2/10) (.jobj [("k", .jint 2)]))]
    5

/-- Stored aggregated confidence of a state, when consensus is set. -/
def storedAggConf (s : GraphState) : Option ℚ :=
  s.consensus.map (fun r => r.aggregated_confidence)

/-- Two agents at the confidence extremes 0.0 and 1.0. -/
def sampleHypsC4 : List (String × AgentOutput) :=
  [("a", sampleOutput "a" "SUCCESS" 0 (.jobj [("k", .jint 1)])),
   ("b", sampleOutput "b" "SUCCESS" 1 (.jobj [("k", .jint 2)]))]

/-- One failed agent (for the all-failed recommendation case). -/
def sampleHypsAllFailed : List (String × AgentOutput) :=
  [("a", sampleOutput "a" "FAILURE" 0 (.jobj [("error", .jstr "X")]))]

/-- A state with one pre-existing hypothesis under another key. -/
def sampleStateC8 : GraphState :=
  sampleState sampleInput
    [("other", sampleOutput "other" "SUCCESS" (8/10) (.jobj [("k", .jint 1)]))]
    5

/-- The state an agent-node invocation returns on sampleStateC8 when
the remote call raises a non-retryable RuntimeError. -/
def agentNodeResultC8 : GraphState :=
  (agent_node sampleCfg (.raised (.other "RuntimeError" "boom") none)
    "t" 1 sampleStateC8).toOption.getD sampleStateC8

/-! ## Shared lemmas -/

/-- Python list(str)[:n] length. -/
theorem pyTake_length (s : String) (n : Nat) :
    (pyTake s n).length = min n s.length := by
  cases s with
  | mk data => simp [pyTake, String.length, String.toList, List.length_take]

/-- Rounding is the identity on values already representable with n
decimals. -/
theorem pyRound_exact (n : Nat) (q : ℚ) (k : ℤ)
    (hk : q * (10 : ℚ) ^ n = (k : ℚ)) : pyRound n q = q := by
  unfold pyRound
  simp only [hk, Int.floor_intCast]
  have h10 : ((10 : ℚ) ^ n) ≠ 0 := by positivity
  have hq : q = (k : ℚ) / (10 : ℚ) ^ n := by
    rw [eq_div_iff h10]; exact hk
  simp [hq]

/-- check_budget_exceeded is the disjunction of the two spec
conditions. -/
theorem check_budget_exceeded_iff (total_cost budget_before : ℚ) :
    check_budget_exceeded total_cost budget_before = true ↔
      (budget_before < 0 ∨ total_cost > budget_before) := by
  unfold check_budget_exceeded
  by_cases h : budget_before < 0
  · simp [h]
  · simp [h]

/-- The cost column of the per-agent breakdown is the estimatedCost
column of the hypotheses. -/
theorem aggregate_per_agent_costs_cost_column
    (hypotheses : List (String × AgentOutput)) :
    (aggregate_per_agent_costs hypotheses).map (fun p => p.2.cost) =
      hypotheses.map (fun p => p.2.cost.estimatedCost) := by
  simp [aggregate_per_agent_costs, List.map_map]

/-! ## Claim theorems -/

/-- Claim C2: for every GraphState, the cost-guardian node computes
total_cost as the 6-decimal rounding of the per-agent cost sum, sets
budget_remaining (both in the state and in the result) to the before
value minus total_cost, and flags budget_exceeded exactly when the
budget was already negative or the total cost strictly exceeds it; at
exact equality (with the budget, hence the total, non-negative) the
flag is false. -/
theorem cost_guardian_node_arithmetic (now : String) (dur : ℤ)
    (state : GraphState) :
    ((cost_guardian_node now dur state).cost_guardian.map
        (fun r => r.total_cost)) =
      some (pyRound 6 ((state.hypotheses.map
        (fun p => p.2.cost.estimatedCost)).sum)) ∧
    (cost_guardian_node now dur state).budget_remaining =
      state.budget_remaining -
        calculate_total_cost (aggregate_per_agent_costs state.hypotheses) ∧
    ((cost_guardian_node now dur state).cost_guardian.map
        (fun r => r.budget_remaining)) =
      some (state.budget_remaining -
        calculate_total_cost (aggregate_per_agent_costs state.hypotheses)) ∧
    (((cost_guardian_node now dur state).cost_guardian.map
        (fun r => r.budget_exceeded)) = some true ↔
      (state.budget_remaining < 0 ∨
        calculate_total_cost (aggregate_per_agent_costs state.hypotheses) >
          state.budget_remaining)) ∧
    (calculate_total_cost (aggregate_per_agent_costs state.hypotheses) =
        state.budget_remaining →
      0 ≤ state.budget_remaining →
      ((cost_guardian_node now dur state).cost_guardian.map
        (fun r => r.budget_exceeded)) = some false) := by
  refine ⟨?_, ?_, ?_, ?_, ?_⟩
  · simp [cost_guardian_node, add_execution_trace, calculate_total_cost,
      aggregate_per_agent_costs_cost_column, calculate_budget_remaining]
  · simp [cost_guardian_node, add_execution_trace,
      calculate_budget_remaining]
  · simp [cost_guardian_node, add_execution_trace,
      calculate_budget_remaining]
  · simp only [cost_guardian_node, add_execution_trace, Option.map_some',
      Option.some.injEq]
    exact check_budget_exceeded_iff _ _
  · intro heq hnn
    simp only [cost_guardian_node, add_execution_trace, Option.map_some',
      Option.some.injEq]
    unfold check_budget_exceeded
    rw [heq]
    simp [not_lt.mpr hnn, le_refl]

/-- Claim C2 witness: a concrete one-agent state whose total cost
(0.001125) equals the budget exactly; the flag is false. -/
theorem cost_guardian_node_arithmetic_witness :
    ((cost_guardian_node "t" 1
        (sampleState sampleInput
          [("signal-intelligence",
            sampleOutput "signal-intelligence" "SUCCESS" (8/10)
              (.jobj [("k", .jint 1)]))]
          (1125/1000000))).cost_guardian.map
      (fun r => r.budget_exceeded)) = some false :=
  (cost_guardian_node_arithmetic "t" 1 _).2.2.2.2
    (by
      simp [calculate_total_cost, aggregate_per_agent_costs, sampleState,
        sampleOutput, sampleCost]
      exact pyRound_exact 6 (1125/1000000) 1125 (by norm_num))
    (by norm_num [sampleState])

/-- Claim C9 counterexample: a two-agent state in which the stored
aggregated confidence is 14/95, which 4-decimal rounding does not fix. -/
theorem consensus_aggregated_confidence_unrounded_cex :
    storedAggConf (consensus_node "t" 0 sampleStateC9) = some (14/95) ∧
    pyRound 4 (14/95 : ℚ) ≠ (14/95 : ℚ) := by
  constructor
  · have h : aggregate_confidence sampleStateC9.hypotheses AGENT_WEIGHTS =
        14/95 := by
      simp [aggregate_confidence, sampleStateC9, sampleState, sampleOutput,
        AGENT_WEIGHTS, dictGetD, List.lookup]
      norm_num
    calc storedAggConf (consensus_node "t" 0 sampleStateC9)
        = some (aggregate_confidence sampleStateC9.hypotheses
            AGENT_WEIGHTS) := rfl
      _ = some (14/95) := by rw [h]
  · intro hcontra
    have hfloor : ⌊(14 / 95 : ℚ) * (10 : ℚ) ^ 4⌋ = 1473 := by norm_num
    rw [pyRound] at hcontra
    rw [hfloor] at hcontra
    norm_num at hcontra

/-- Claim C9 (amended): the consensus node stores aggregated_confidence
as the exact weighted average returned by aggregate_confidence, with no
rounding applied. -/
theorem consensus_node_stores_exact_aggregate (now : String) (dur : ℤ)
    (state : GraphState) :
    storedAggConf (consensus_node now dur state) =
      some (aggregate_confidence state.hypotheses AGENT_WEIGHTS) := rfl

/-- Claim C3: the deterministic hash is a function of exactly
incident_id, evidence_bundle, execution_id, findings and the 4-decimal
rounding of the confidence: two invocations agreeing on those five
values hash identically, whatever their timestamps, session ids,
contexts, or raw (unrounded) confidences. -/
theorem deterministic_hash_semantic_fields_only
    (i1 i2 : AgentInput) (f1 f2 : Json) (c1 c2 : ℚ)
    (hid : i1.incident_id = i2.incident_id)
    (hev : i1.evidence_bundle = i2.evidence_bundle)
    (hex : i1.execution_id = i2.execution_id)
    (hf : f1 = f2)
    (hc : pyRound 4 c1 = pyRound 4 c2) :
    compute_deterministic_hash i1 f1 c1 =
      compute_deterministic_hash i2 f2 c2 := by
  unfold compute_deterministic_hash
  rw [hid, hev, hex, hf, hc]

/-- Claim C3 witness: two inputs differing in timestamp, session_id and
context, with confidences 0.8 and 0.80001 that agree after 4-decimal
rounding, produce the same hash. -/
theorem deterministic_hash_semantic_fields_only_witness :
    sampleInput.timestamp ≠ sampleInputB.timestamp ∧
    sampleInput.session_id ≠ sampleInputB.session_id ∧
    (8/10 : ℚ) ≠ (80001/100000 : ℚ) ∧
    compute_deterministic_hash sampleInput (.jobj [("k", .jint 1)])
        (8/10) =
      compute_deterministic_hash sampleInputB (.jobj [("k", .jint 1)])
        (80001/100000) := by
  have h1 : pyRound 4 (8/10 : ℚ) = 4/5 := by rw [pyRound]; norm_num
  have h2 : pyRound 4 (80001/100000 : ℚ) = 4/5 := by rw [pyRound]; norm_num
  refine ⟨by decide, by decide, by norm_num, ?_⟩
  exact deterministic_hash_semantic_fields_only sampleInput sampleInputB
    _ _ _ _ rfl rfl rfl rfl (h1.trans h2.symm)

/-- The confidence list has the length of the hypotheses map. -/
theorem confidencesOf_length (H : List (String × AgentOutput)) :
    (confidencesOf H).length = H.length := by
  simp [confidencesOf]

/-- Sum of a constant list. -/
theorem list_sum_of_all_eq (l : List ℚ) (a : ℚ) (h : ∀ x ∈ l, x = a) :
    l.sum = a * l.length := by
  induction l with
  | nil => simp
  | cons b t ih =>
      have hb : b = a := h b (by simp)
      have ht : ∀ x ∈ t, x = a := fun x hx => h x (by simp [hx])
      simp [hb, ih ht]
      ring

/-- A nonempty constant list has zero population variance. -/
theorem listVariance_of_all_eq (l : List ℚ) (a : ℚ) (hne : l ≠ [])
    (h : ∀ x ∈ l, x = a) : listVariance l = 0 := by
  have hlen : (l.length : ℚ) ≠ 0 :=
    (Nat.cast_pos.mpr (List.length_pos.mpr hne)).ne'
  have hmean : listMean l = a := by
    rw [listMean, list_sum_of_all_eq l a h, mul_div_assoc,
      div_self hlen, mul_one]
  have hzero : ∀ x ∈ l.map (fun c => (c - listMean l) ^ 2), x = 0 := by
    intro x hx
    obtain ⟨c, hc, rfl⟩ := List.mem_map.mp hx
    rw [hmean, h c hc]
    ring
  rw [listVariance, List.sum_eq_zero hzero, zero_div]

/-- Square root of a quarter. -/
theorem sqrt_quarter : Real.sqrt (1/4 : ℝ) = 1/2 := by
  rw [show (1/4 : ℝ) = (1/2) ^ 2 by norm_num,
    Real.sqrt_sq (by norm_num : (0:ℝ) ≤ 1/2)]

/-- Replacing the slot of key k does not disturb other keys of the
replacement map. -/
theorem lookup_map_replace {α : Type} (d : List (String × α))
    (k k' : String) (v : α) (h : k' ≠ k) :
    (d.map (fun p => if p.1 = k then (k, v) else p)).lookup k' =
      d.lookup k' := by
  induction d with
  | nil => rfl
  | cons p rest ih =>
      rw [List.map_cons]
      by_cases hp : p.1 = k
      · have h1 : (k' == k) = false := beq_eq_false_iff_ne.mpr h
        have h2 : (k' == p.1) = false := by rw [hp]; exact h1
        rw [if_pos hp]
        simp only [List.lookup, h1, h2, ih]
      · rw [if_neg hp]
        cases hbe : (k' == p.1) with
        | true => simp only [List.lookup, hbe]
        | false => simp only [List.lookup, hbe, ih]

/-- Appending a fresh key does not disturb other keys. -/
theorem lookup_append_single {α : Type} (d : List (String × α))
    (k k' : String) (v : α) (h : k' ≠ k) :
    (d ++ [(k, v)]).lookup k' = d.lookup k' := by
  induction d with
  | nil =>
      have h1 : (k' == k) = false := beq_eq_false_iff_ne.mpr h
      simp only [List.nil_append, List.lookup, h1]
  | cons p rest ih =>
      rw [List.cons_append]
      cases hbe : (k' == p.1) with
      | true => simp only [List.lookup, hbe]
      | false => simp only [List.lookup, hbe, ih]

/-- Python dict write: other keys are unchanged. -/
theorem dictSet_lookup_ne {α : Type} (d : List (String × α))
    (k k' : String) (v : α) (h : k' ≠ k) :
    (dictSet d k v).lookup k' = d.lookup k' := by
  unfold dictSet
  by_cases hmem : (d.lookup k).isSome
  · rw [if_pos hmem]; exact lookup_map_replace d k k' v h
  · rw [if_neg hmem]; exact lookup_append_single d k k' v h

/-- Replacing key k's slot makes lookup k return the new value, when
k is present. -/
theorem lookup_map_replace_self {α : Type} (d : List (String × α))
    (k : String) (v : α) (hmem : (d.lookup k).isSome) :
    (d.map (fun p => if p.1 = k then (k, v) else p)).lookup k = some v := by
  induction d with
  | nil => simp [List.lookup] at hmem
  | cons p rest ih =>
      rw [List.map_cons]
      by_cases hp : p.1 = k
      · rw [if_pos hp]
        simp only [List.lookup, beq_self_eq_true]
      · have hne : (k == p.1) = false :=
          beq_eq_false_iff_ne.mpr (fun he => hp he.symm)
        have hmem' : (rest.lookup k).isSome := by
          rw [List.lookup, hne] at hmem
          exact hmem
        rw [if_neg hp]
        simp only [List.lookup, hne, ih hmem']

/-- Appending key k makes lookup k return the new value, when k was
absent. -/
theorem lookup_append_self {α : Type} (d : List (String × α))
    (k : String) (v : α) (hmem : ¬ (d.lookup k).isSome) :
    (d ++ [(k, v)]).lookup k = some v := by
  induction d with
  | nil => simp only [List.nil_append, List.lookup, beq_self_eq_true]
  | cons p rest ih =>
      have hne : (k == p.1) = false := by
        cases hbe : (k == p.1) with
        | true =>
            rw [List.lookup, hbe] at hmem
            simp at hmem
        | false => rfl
      have hmem' : ¬ (rest.lookup k).isSome := by
        rw [List.lookup, hne] at hmem
        exact hmem
      rw [List.cons_append]
      simp only [List.lookup, hne, ih hmem']

/-- Python dict write: the written key holds the new value. -/
theorem dictSet_lookup_self {α : Type} (d : List (String × α))
    (k : String) (v : α) :
    (dictSet d k v).lookup k = some v := by
  unfold dictSet
  by_cases hmem : (d.lookup k).isSome
  · rw [if_pos hmem]; exact lookup_map_replace_self d k v hmem
  · rw [if_neg hmem]; exact lookup_append_self d k v hmem

/-- Claim C4: the agreement level is 1.0 below two agents or on equal
confidences, equals the clamped 1 − σ/0.5 for two or more agents
(σ the population standard deviation of the confidences), always lies
in [0, 1], and is 0.0 on exactly one confidence 0.0 plus one
confidence 1.0. -/
theorem compute_agreement_level_spec (H : List (String × AgentOutput))
    (hne : H ≠ [])
    (hbound : ∀ c ∈ confidencesOf H, 0 ≤ c ∧ c ≤ 1) :
    (H.length < 2 → compute_agreement_level H = 1) ∧
    ((∀ x ∈ confidencesOf H, ∀ y ∈ confidencesOf H, x = y) →
      compute_agreement_level H = 1) ∧
    (2 ≤ H.length →
      compute_agreement_level H =
        max 0 (min 1 (1 -
          Real.sqrt ((listVariance (confidencesOf H) : ℚ) : ℝ) /
            (1/2 : ℝ)))) ∧
    (0 ≤ compute_agreement_level H ∧ compute_agreement_level H ≤ 1) ∧
    ((confidencesOf H = [0, 1] ∨ confidencesOf H = [1, 0]) →
      compute_agreement_level H = 0) := by
  refine ⟨?_, ?_, ?_, ?_, ?_⟩
  · intro h
    simp [compute_agreement_level, confidencesOf_length, h]
  · intro hall
    by_cases hlt : H.length < 2
    · simp [compute_agreement_level, confidencesOf_length, hlt]
    · have hne' : confidencesOf H ≠ [] := by
        simpa [confidencesOf] using hne
      obtain ⟨a, t, hcons⟩ : ∃ a t, confidencesOf H = a :: t := by
        cases hcl : confidencesOf H with
        | nil => exact absurd hcl hne'
        | cons a t => exact ⟨a, t, rfl⟩
      have ha : a ∈ confidencesOf H := by rw [hcons]; simp
      have hvar : listVariance (confidencesOf H) = 0 :=
        listVariance_of_all_eq _ a hne' (fun x hx => hall x hx a ha)
      simp [compute_agreement_level, confidencesOf_length, hlt, hvar]
  · intro h2
    have hlt : ¬ (confidencesOf H).length < 2 := by
      rw [confidencesOf_length]; omega
    have hlt2 : ¬ H.length < 2 := by omega
    have e1 : compute_agreement_level H =
        (if Real.sqrt ((listVariance (confidencesOf H) : ℚ) : ℝ) = 0
         then 1
         else max 0 (min 1 (1 -
           Real.sqrt ((listVariance (confidencesOf H) : ℚ) : ℝ) /
             ((compute_max_possible_std_dev
               (confidencesOf H).length : ℚ) : ℝ)))) := by
      simp only [compute_agreement_level]
      rw [if_neg hlt]
    rw [e1]
    have e2 : ((compute_max_possible_std_dev
        (confidencesOf H).length : ℚ) : ℝ) = 1/2 := by
      rw [confidencesOf_length, compute_max_possible_std_dev,
        if_neg hlt2]
      norm_num
    rw [e2]
    by_cases hsd :
        Real.sqrt ((listVariance (confidencesOf H) : ℚ) : ℝ) = 0
    · rw [if_pos hsd, hsd]
      norm_num
    · rw [if_neg hsd]
  · simp only [compute_agreement_level]
    split_ifs with h1 h2
    · norm_num
    · norm_num
    · constructor
      · exact le_max_left _ _
      · exact max_le (by norm_num) (min_le_left _ _)
  · intro hc
    have hvar : listVariance (confidencesOf H) = 1/4 := by
      rcases hc with h | h <;>
        rw [h] <;> norm_num [listVariance, listMean]
    have hlen2 : (confidencesOf H).length = 2 := by
      rcases hc with h | h <;> rw [h] <;> rfl
    have hlt : ¬ (confidencesOf H).length < 2 := by omega
    have hcast : ((listVariance (confidencesOf H) : ℚ) : ℝ) = 1/4 := by
      rw [hvar]; push_cast; norm_num
    have hsqrt :
        Real.sqrt ((listVariance (confidencesOf H) : ℚ) : ℝ) = 1/2 := by
      rw [hcast, sqrt_quarter]
    have e1 : compute_agreement_level H =
        max 0 (min 1 (1 -
          Real.sqrt ((listVariance (confidencesOf H) : ℚ) : ℝ) /
            ((compute_max_possible_std_dev
              (confidencesOf H).length : ℚ) : ℝ))) := by
      simp only [compute_agreement_level]
      rw [if_neg hlt, if_neg (by rw [hsqrt]; norm_num)]
    rw [e1, hsqrt, hlen2, compute_max_possible_std_dev]
    norm_num

/-- Claim C4 witness: two agents at confidences 0.0 and 1.0 get
agreement level 0. -/
theorem compute_agreement_level_spec_witness :
    compute_agreement_level sampleHypsC4 = 0 :=
  (compute_agreement_level_spec sampleHypsC4
    (by simp [sampleHypsC4])
    (by simp [sampleHypsC4, confidencesOf, sampleOutput])).2.2.2.2
    (Or.inl (by simp [sampleHypsC4, confidencesOf, sampleOutput]))

/-- The failure path of the agent node never touches budget_remaining,
agent_input, or the hypothesis slots of other agents. -/
theorem agent_node_failure_path_frame (cfg : AgentNodeConfig)
    (exc : PyException) (resp : Option BedrockUsage) (ra : Nat)
    (now : String) (dur : ℤ) (state : GraphState) :
    (agent_node_failure_path cfg exc resp ra now dur
        state).budget_remaining = state.budget_remaining ∧
    (agent_node_failure_path cfg exc resp ra now dur
        state).agent_input = state.agent_input ∧
    (∀ k, k ≠ cfg.agent_id →
      (agent_node_failure_path cfg exc resp ra now dur
        state).hypotheses.lookup k = state.hypotheses.lookup k) := by
  simp only [agent_node_failure_path]
  split_ifs with hretry
  · refine ⟨rfl, rfl, fun k hk => rfl⟩
  · exact ⟨rfl, rfl, fun k hk =>
      dictSet_lookup_ne state.hypotheses cfg.agent_id k _ hk⟩

/-- Claim C8: budget_remaining is written by the cost guardian alone
(before minus total cost); the consensus node preserves the budget, the
agent input and the whole hypotheses map; and every path of an agent
node preserves the budget, the agent input and every other agent's
hypothesis slot. -/
theorem budget_write_discipline (now : String) (dur : ℤ)
    (state : GraphState) :
    ((cost_guardian_node now dur state).budget_remaining =
      state.budget_remaining -
        calculate_total_cost (aggregate_per_agent_costs state.hypotheses)) ∧
    ((consensus_node now dur state).budget_remaining =
        state.budget_remaining ∧
      (consensus_node now dur state).agent_input = state.agent_input ∧
      (consensus_node now dur state).hypotheses = state.hypotheses) ∧
    (∀ cfg outcome s2,
      agent_node cfg outcome now dur state = .ok s2 →
      s2.budget_remaining = state.budget_remaining ∧
      s2.agent_input = state.agent_input ∧
      (∀ k, k ≠ cfg.agent_id →
        s2.hypotheses.lookup k = state.hypotheses.lookup k)) := by
  refine ⟨?_, ⟨rfl, rfl, rfl⟩, ?_⟩
  · simp [cost_guardian_node, add_execution_trace,
      calculate_budget_remaining]
  · intro cfg outcome s2 hok
    simp only [agent_node] at hok
    split_ifs at hok with hcfg
    split at hok
    · injection hok with h
      subst h
      exact agent_node_failure_path_frame cfg _ none _ now dur _
    · split at hok
      · injection hok with h
        subst h
        exact agent_node_failure_path_frame cfg _ _ _ now dur _
      · split at hok
        · injection hok with h
          subst h
          exact agent_node_failure_path_frame cfg _ _ _ now dur _
        · injection hok with h
          subst h
          exact ⟨rfl, rfl, fun k hk =>
            dictSet_lookup_ne state.hypotheses cfg.agent_id k _ hk⟩

/-- Claim C8 witness: a failing agent invocation on a concrete state
leaves the budget, the agent input and the other agent's slot intact. -/
theorem budget_write_discipline_witness :
    agentNodeResultC8.budget_remaining = sampleStateC8.budget_remaining ∧
    agentNodeResultC8.agent_input = sampleStateC8.agent_input ∧
    agentNodeResultC8.hypotheses.lookup "other" =
      sampleStateC8.hypotheses.lookup "other" := by
  have h := (budget_write_discipline "t" 1 sampleStateC8).2.2 sampleCfg
    (.raised (.other "RuntimeError" "boom") none) agentNodeResultC8 rfl
  exact ⟨h.1, h.2.1, h.2.2 "other" (by decide)⟩

/-- The non-retry branch of the failure path: the synthesized FAILURE
hypothesis lands in the agent's slot, exactly one StructuredError is
appended, and a FAILED trace entry is appended. -/
theorem agent_node_failure_path_result (cfg : AgentNodeConfig)
    (exc : PyException) (resp : Option BedrockUsage) (ra : Nat)
    (now : String) (dur : ℤ) (state : GraphState)
    (hnr : ¬ (is_retryable_error (map_exception_to_error_code exc) = true ∧
      ra < cfg.max_retries)) :
    (agent_node_failure_path cfg exc resp ra now dur
        state).hypotheses.lookup cfg.agent_id =
      some (create_failure_hypothesis cfg.agent_id cfg.agent_version
        state.agent_input.execution_id (map_exception_to_error_code exc)
        exc.message (is_retryable_error (map_exception_to_error_code exc))
        ra (extract_cost_metadata resp) now) ∧
    (agent_node_failure_path cfg exc resp ra now dur state).errors =
      state.errors ++
        [{ agent_id := cfg.agent_id,
           error_code := map_exception_to_error_code exc,
           message := exc.message,
           retryable := is_retryable_error (map_exception_to_error_code exc),
           timestamp := now, retry_attempt := ra, details := none }] ∧
    (agent_node_failure_path cfg exc resp ra now dur
        state).execution_trace =
      state.execution_trace ++
        [{ node_id := cfg.agent_id, timestamp := now, duration_ms := dur,
           status := "FAILED",
           metadata := some
             [("error_code", .jstr (map_exception_to_error_code exc)),
              ("retry_attempt", .jint ra)] }] := by
  simp only [agent_node_failure_path]
  rw [if_neg hnr]
  exact ⟨dictSet_lookup_self _ _ _, rfl, rfl⟩

/-- Claim C1: when the invocation raises an exception that is
non-retryable (or retryable with the attempts already at max_retries),
the agent node still returns a state: the agent's slot holds a FAILURE
hypothesis with confidence 0.0, findings {error: code}, the
"Agent failed:" reasoning, the mandatory disclaimer and the "FAILURE"
deterministic hash; exactly one StructuredError for this agent is
appended to errors; and a FAILED trace entry is appended (after the
STARTED entry of this attempt). -/
theorem failure_as_hypothesis (cfg : AgentNodeConfig) (exc : PyException)
    (resp : Option BedrockUsage) (now : String) (dur : ℤ)
    (state : GraphState)
    (hcfg1 : cfg.bedrock_agent_id ≠ "")
    (hcfg2 : cfg.bedrock_agent_alias_id ≠ "")
    (hval : validate_agent_input state.agent_input = .ok ())
    (hnr : ¬ (is_retryable_error (map_exception_to_error_code exc) = true ∧
      dictGetD state.retry_count cfg.agent_id 0 < cfg.max_retries)) :
    ∃ s2, agent_node cfg (.raised exc resp) now dur state = .ok s2 ∧
      (∃ out, s2.hypotheses.lookup cfg.agent_id = some out ∧
        out.status = "FAILURE" ∧
        out.confidence = 0 ∧
        out.findings =
          .jobj [("error", .jstr (map_exception_to_error_code exc))] ∧
        out.reasoning = "Agent failed: " ++ exc.message ∧
        out.disclaimer = "HYPOTHESIS_ONLY_NOT_AUTHORITATIVE" ∧
        out.replay_metadata.deterministicHash = "FAILURE") ∧
      s2.errors = state.errors ++
        [{ agent_id := cfg.agent_id,
           error_code := map_exception_to_error_code exc,
           message := exc.message,
           retryable := is_retryable_error (map_exception_to_error_code exc),
           timestamp := now,
           retry_attempt := dictGetD state.retry_count cfg.agent_id 0,
           details := none }] ∧
      s2.execution_trace = state.execution_trace ++
        [{ node_id := cfg.agent_id, timestamp := now, duration_ms := 0,
           status := "STARTED",
           metadata := some [("retry_attempt",
             .jint ((dictGetD state.retry_count cfg.agent_id 0 : ℕ) : ℤ))] },
         { node_id := cfg.agent_id, timestamp := now, duration_ms := dur,
           status := "FAILED",
           metadata := some
             [("error_code", .jstr (map_exception_to_error_code exc)),
              ("retry_attempt",
               .jint ((dictGetD state.retry_count cfg.agent_id 0 : ℕ) : ℤ))] }] := by
  have hres := agent_node_failure_path_result cfg exc resp
    (dictGetD state.retry_count cfg.agent_id 0) now dur
    (add_execution_trace state cfg.agent_id 0 "STARTED"
      (some [("retry_attempt",
        .jint ((dictGetD state.retry_count cfg.agent_id 0 : ℕ) : ℤ))]) now) hnr
  refine ⟨_, ?_, ⟨_, hres.1, rfl, rfl, rfl, rfl, rfl, rfl⟩, hres.2.1, ?_⟩
  · simp [agent_node, hval, hcfg1, hcfg2]
  · rw [hres.2.2]
    simp [add_execution_trace]

/-- Claim C1 witness: a concrete non-retryable RuntimeError on a valid
input yields a FAILURE hypothesis with confidence 0. -/
theorem failure_as_hypothesis_witness :
    ∃ s2, agent_node sampleCfg
        (.raised (.other "RuntimeError" "boom") none) "t" 1
        (sampleState sampleInput [] 5) = .ok s2 ∧
      (∃ out, s2.hypotheses.lookup "signal-intelligence" = some out ∧
        out.status = "FAILURE" ∧ out.confidence = 0) := by
  have h := failure_as_hypothesis sampleCfg (.other "RuntimeError" "boom")
    none "t" 1 (sampleState sampleInput [] 5)
    (by decide) (by decide) rfl (by decide)
  obtain ⟨s2, hok, ⟨out, hlook, hst, hconf, _⟩, _, _⟩ := h
  exact ⟨s2, hok, out, hlook, hst, hconf⟩

/-- Claim C5 (code bug): the canonical codes TIMEOUT and
DATA_SOURCE_UNAVAILABLE produced by exception classification are not
members of RETRYABLE_ERROR_CODES (which lists the raw exception names
instead), so a first-attempt timeout synthesizes a failure hypothesis
immediately: no RETRYING trace, no retry_count increment. -/
theorem timeout_classified_not_retryable :
    map_exception_to_error_code (.other "TimeoutError" "read timed out") =
      "TIMEOUT" ∧
    map_exception_to_error_code
        (.clientError "ServiceUnavailableException" "service down") =
      "DATA_SOURCE_UNAVAILABLE" ∧
    is_retryable_error "TIMEOUT" = false ∧
    is_retryable_error "DATA_SOURCE_UNAVAILABLE" = false ∧
    (agent_node sampleCfg
        (.raised (.other "TimeoutError" "read timed out") none) "t" 1
        (sampleState sampleInput [] 5)).map
      (fun s2 => (s2.retry_count,
        (s2.hypotheses.lookup "signal-intelligence").map (fun o => o.status),
        s2.execution_trace.map (fun e => e.status))) =
      .ok ([], some "FAILURE", ["STARTED", "FAILED"]) := by
  refine ⟨rfl, rfl, rfl, rfl, rfl⟩

/-- Claim C6 (code bug): empty required input fields raise ValueError,
but "ValueError" has no entry in ERROR_CODE_MAPPING, so the failure is
classified UNKNOWN_ERROR (not INVALID_INPUT); it is still
non-retryable. -/
theorem empty_input_classified_unknown_error :
    map_exception_to_error_code
        (.other "ValueError" "incident_id is required") =
      "UNKNOWN_ERROR" ∧
    ERROR_CODE_MAPPING.lookup "ValueError" = none ∧
    (agent_node sampleCfg (.raised (.other "X" "unused") none) "t" 1
        (sampleState sampleEmptyInput [] 5)).map
      (fun s2 =>
        (s2.errors.map (fun e => (e.agent_id, e.error_code, e.retryable)),
         (s2.hypotheses.lookup "signal-intelligence").map
           (fun o => (o.findings.objGet "error").map pyStr))) =
      .ok ([("signal-intelligence", "UNKNOWN_ERROR", false)],
           some (some "UNKNOWN_ERROR")) := by
  refine ⟨rfl, rfl, rfl⟩

/-- The 500-character truncation step bounds any string by 500
characters. -/
theorem truncate500_length (u : String) :
    (if u.length > 500 then pyTake u 497 ++ "..." else u).length ≤ 500 := by
  split_ifs with h
  · rw [String.length_append, pyTake_length]
    have hm := min_le_left 497 u.length
    have hd : ("..." : String).length = 3 := by decide
    omega
  · omega

/-- Claim C7: with a non-empty hypotheses map, the unified
recommendation is the fixed all-agents-failed sentence when every
output is FAILURE; the fixed no-recommendations sentence when no
non-FAILURE output carries a recommendation; otherwise the
PRIMARY/ALTERNATIVE parts built from the top-two recommendation types
by descending maximum confidence (descriptions truncated to 100
characters, with agreeing-agent counts) joined with the CONFLICTS
part, truncated with an ellipsis; and in every case the result is at
most 500 characters long. -/
theorem synthesize_unified_recommendation_spec
    (H : List (String × AgentOutput)) (conflicts : List Conflict)
    (hne : H ≠ []) :
    (allFailed H = true →
      synthesize_unified_recommendation H conflicts =
        "Insufficient data for recommendation. All agents failed.") ∧
    (allFailed H = false → (recsByTypeDesc H).isEmpty = true →
      synthesize_unified_recommendation H conflicts =
        "No actionable recommendations.") ∧
    (allFailed H = false → (recsByTypeDesc H).isEmpty = false →
      (let unified := String.intercalate ". " (recommendationParts H ++
        [if conflicts.isEmpty then "CONFLICTS: None detected"
         else "CONFLICTS: " ++ toString conflicts.length ++ " detected"])
       synthesize_unified_recommendation H conflicts =
         if unified.length > 500 then pyTake unified 497 ++ "..."
         else unified)) ∧
    (synthesize_unified_recommendation H conflicts).length ≤ 500 := by
  refine ⟨?_, ?_, ?_, ?_⟩
  · intro h
    simp [synthesize_unified_recommendation, h]
  · intro h1 h2
    simp [synthesize_unified_recommendation, h1, h2]
  · intro h1 h2
    simp [synthesize_unified_recommendation, h1, h2]
  · by_cases h1 : allFailed H = true
    · simp [synthesize_unified_recommendation, h1]
      decide
    · by_cases h2 : (recsByTypeDesc H).isEmpty = true
      · simp [synthesize_unified_recommendation, h1, h2]
        decide
      · simp only [synthesize_unified_recommendation, h1, h2,
          if_false, Bool.false_eq_true]
        exact truncate500_length _

/-- Claim C7 witness: a map with one failed agent yields the fixed
all-agents-failed sentence, within the length bound. -/
theorem synthesize_unified_recommendation_spec_witness :
    synthesize_unified_recommendation sampleHypsAllFailed [] =
      "Insufficient data for recommendation. All agents failed." ∧
    (synthesize_unified_recommendation sampleHypsAllFailed []).length ≤
      500 := by
  have t := synthesize_unified_recommendation_spec sampleHypsAllFailed []
    (by simp [sampleHypsAllFailed])
  exact ⟨t.1 (by decide), t.2.2.2⟩

/-- Claim C10 counterexample: redaction is not idempotent. An AWS
access key immediately followed by 12 digits is only partially redacted
on the first pass (the aws_account substitution runs before the
aws_access_key one exposes the fresh 12-digit run), and a second pass
redacts further. -/
theorem redact_pii_not_idempotent :
    (redact_pii "AKIA0123456789ABCDEF123456789012").1 =
      "[AWS_KEY_REDACTED]123456789012" ∧
    (redact_pii "[AWS_KEY_REDACTED]123456789012").1 =
      "[AWS_KEY_REDACTED][AWS_ACCOUNT_REDACTED]" ∧
    (redact_pii ((redact_pii "AKIA0123456789ABCDEF123456789012").1)).1 ≠
      (redact_pii "AKIA0123456789ABCDEF123456789012").1 := by
  refine ⟨by decide, by decide, by decide⟩

/-- Claim C10 (amended): no replacement token re-triggers any of the
six PII patterns — each token is a fixed point of redact_pii with the
redaction flag false — and the empty string is returned unchanged with
the flag false; full idempotence fails (see the counterexample). -/
theorem redact_pii_tokens_fixed :
    redact_pii "[EMAIL_REDACTED]" = ("[EMAIL_REDACTED]", false) ∧
    redact_pii "[PHONE_REDACTED]" = ("[PHONE_REDACTED]", false) ∧
    redact_pii "[SSN_REDACTED]" = ("[SSN_REDACTED]", false) ∧
    redact_pii "[AWS_ACCOUNT_REDACTED]" =
      ("[AWS_ACCOUNT_REDACTED]", false) ∧
    redact_pii "[AWS_KEY_REDACTED]" = ("[AWS_KEY_REDACTED]", false) ∧
    redact_pii "[IP_REDACTED]" = ("[IP_REDACTED]", false) ∧
    redact_pii "" = ("", false) := by
  refine ⟨by decide, by decide, by decide, by decide, by decide,
    by decide, by decide⟩

end OPX

